import Mathlib

/-!
Verification of the StudySprint backend (src/backend/src/server.js).

The server keeps a flat in-memory array of goal records plus a
monotonically increasing id counter, and exposes HTTP handlers for
listing, stats, create, partial update, toggle and delete.  Request
bodies and responses are JSON; we embed the JSON values the handlers
inspect and produce with a small inductive type, and each Express route
handler as a pure function from the server state (the goals array and
the nextGoalId counter) and the parsed request to the new state and an
HTTP response (status code plus JSON body).  Persistence (saveGoals)
only mirrors the in-memory array to disk and is not modelled; the
in-memory array is the authoritative state the handlers read.
-/

namespace StudySprint

/-- JSON values, as far as the server inspects or produces them.
Numbers in this server are always integers (ids, counts). -/
inductive Json where
  | null : Json
  | bool (b : Bool) : Json
  | num (n : Int) : Json
  | str (s : String) : Json
  | arr (elems : List Json) : Json
  | obj (fields : List (String × Json)) : Json

/-- A goal record.  Goals created by POST /api/goals carry exactly
id, title, priority, dueDate, completed and createdAt.  Records loaded
from the data file may additionally carry an archived flag (the
frontend reads goal.archived through a Boolean coercion, where a
missing property reads as false); the server itself never writes or
reads that flag, so goals created in-process have it false. -/
structure Goal where
  id : Nat
  title : String
  priority : String
  dueDate : Option String
  completed : Bool
  archived : Bool
  createdAt : String
deriving Repr, DecidableEq

/-- Recognized query parameters of the list and stats endpoints.
Express query parameters are raw strings; an absent parameter is none
(the handler's typeof check maps a non-string to "" exactly as an
absent one).  page, pageSize, includeArchived, sortBy and order are
sent by clients but never read by this server. -/
structure QueryParams where
  status : Option String := none
  priority : Option String := none
  q : Option String := none
  sortBy : Option String := none
  order : Option String := none
  page : Option String := none
  pageSize : Option String := none
  includeArchived : Option String := none
deriving Repr, DecidableEq

/-- A JSON request body for POST /api/goals and PATCH /api/goals/:id.
none models an absent (undefined) field; some Json.null models an
explicit null. -/
structure ReqBody where
  title : Option Json := none
  priority : Option Json := none
  dueDate : Option Json := none

/-- An HTTP response: status code plus JSON body.  res.json defaults
to status 200; res.status(204).send() is modelled with a null body. -/
structure HttpResponse where
  status : Nat
  body : Json

/-- The mutable server state: the goals array and the nextGoalId
counter (server.js lines 12-13). -/
structure ServerState where
  goals : List Goal
  nextGoalId : Nat
deriving Repr, DecidableEq

/-- const validPriorities = new Set(["low", "medium", "high"]) -/
def validPriorities : List String := ["low", "medium", "high"]

/-- ASCII whitespace as trimmed by String.prototype.trim (the server
only ever trims user text, whose relevant whitespace is ASCII). -/
def isJsSpace (c : Char) : Bool :=
  c == ' ' || c == '\t' || c == '\n' || c == '\r' || c == '\x0b' || c == '\x0c'

/-- Drop leading whitespace characters. -/
def dropLeadSpaces : List Char → List Char
  | [] => []
  | c :: rest => if isJsSpace c then dropLeadSpaces rest else c :: rest

/-- String.prototype.trim: drop leading and trailing whitespace. -/
def jsTrim (s : String) : String :=
  String.mk (dropLeadSpaces (dropLeadSpaces s.toList.reverse).reverse)

/-- ASCII lowercasing of one character (String.prototype.toLowerCase;
the vocabulary this server compares case-insensitively is ASCII). -/
def lowerChar (c : Char) : Char :=
  if c ≥ 'A' && c ≤ 'Z' then Char.ofNat (c.toNat + 32) else c

/-- String.prototype.toLowerCase. -/
def jsToLower (s : String) : String := String.mk (s.toList.map lowerChar)

/-- JavaScript truthiness of a JSON value, used by the `req.body?.field &&`
guards in the POST handler. -/
def jsTruthy : Json → Bool
  | Json.null => false
  | Json.bool b => b
  | Json.num n => n != 0
  | Json.str s => s != ""
  | Json.arr _ => true
  | Json.obj _ => true

/-- Truthiness of a possibly absent field (undefined is falsy). -/
def optTruthy : Option Json → Bool
  | none => false
  | some v => jsTruthy v

/-- function parsePriority(value): normalize a string by trim +
toLowerCase (a non-string normalizes to ""), then accept it only if it
is one of the three valid priorities. -/
def parsePriority (value : Option Json) : Option String :=
  let normalized :=
    match value with
    | some (Json.str s) => jsToLower (jsTrim s)
    | _ => ""
  if validPriorities.contains normalized then some normalized else none

/-- The regular expression test of parseDueDate: exactly four digits,
a hyphen, two digits, a hyphen, two digits. -/
def isDateShape (s : String) : Bool :=
  match s.toList with
  | [y1, y2, y3, y4, h1, m1, m2, h2, d1, d2] =>
      y1.isDigit && y2.isDigit && y3.isDigit && y4.isDigit &&
      h1 == '-' && m1.isDigit && m2.isDigit && h2 == '-' &&
      d1.isDigit && d2.isDigit
  | _ => false

/-- function parseDueDate(value): null/undefined or "" give null; a
non-string gives null; otherwise trim and keep the string only if it
matches the YYYY-MM-DD shape. -/
def parseDueDate (value : Option Json) : Option String :=
  match value with
  | none => none
  | some Json.null => none
  | some (Json.str s) =>
      if s == "" then none
      else
        let clean := jsTrim s
        if isDateShape clean then some clean else none
  | some _ => none

/-- Whether a JSON value is the literal null (the dueDate branch of the
PATCH handler tests dueDate !== null). -/
def isNullJson : Json → Bool
  | Json.null => true
  | _ => false

/-- needle-comes-first test on character lists, the base step of the
String.prototype.includes translation. -/
def charsLeads : List Char → List Char → Bool
  | [], _ => true
  | _ :: _, [] => false
  | c :: cs, d :: ds => c == d && charsLeads cs ds

/-- Substring occurrence of needle anywhere in the haystack. -/
def charsHas (needle : List Char) : List Char → Bool
  | [] => charsLeads needle []
  | c :: rest => charsLeads needle (c :: rest) || charsHas needle rest

/-- String.prototype.includes(sub) on hay. -/
def jsIncludes (hay sub : String) : Bool := charsHas sub.toList hay.toList

/-- The predicate of the items.filter arrow function inside filterGoals,
closed over the three normalized query strings (server.js lines 37-51). -/
def goalMatches (status priority q : String) (goal : Goal) : Bool :=
  if (status == "active") && goal.completed then false
  else if (status == "completed") && !goal.completed then false
  else if (!(priority == "")) && (!(priority == "all")) && (!(goal.priority == priority)) then false
  else if (!(q == "")) && (!(jsIncludes (jsToLower goal.title) q)) then false
  else true

/-- Normalization of one raw query parameter: absent or non-string
becomes "", a string is trimmed and lowercased (server.js lines 33-35). -/
def normParam (value : Option String) : String := jsToLower (jsTrim (value.getD ""))

/-- function filterGoals(items, query) (server.js lines 32-52). -/
def filterGoals (items : List Goal) (query : QueryParams) : List Goal :=
  items.filter
    (goalMatches (normParam query.status) (normParam query.priority) (normParam query.q))

/-- Serialization of a goal record by res.json, field order of the
object literal built by the POST handler.  The archived flag is never
part of a record created by this server, so it is not serialized. -/
def encodeGoal (g : Goal) : Json :=
  Json.obj [("id", Json.num (Int.ofNat g.id)),
            ("title", Json.str g.title),
            ("priority", Json.str g.priority),
            ("dueDate", match g.dueDate with | none => Json.null | some d => Json.str d),
            ("completed", Json.bool g.completed),
            ("createdAt", Json.str g.createdAt)]

/-- An error body: res.json({ error: msg }). -/
def errBody (msg : String) : Json := Json.obj [("error", Json.str msg)]

/-- Field access on a JSON object, used to state which keys a response
body does and does not carry. -/
def jsonLookup (j : Json) (key : String) : Option Json :=
  match j with
  | Json.obj fields => List.lookup key fields
  | _ => none

/-- GET /api/goals (server.js lines 97-100): filter, then respond 200
with the items; nothing else is computed. -/
def getGoals (goals : List Goal) (query : QueryParams) : HttpResponse :=
  { status := 200,
    body := Json.obj [("items", Json.arr ((filterGoals goals query).map encodeGoal))] }

/-- GET /api/goals/stats (server.js lines 102-119). -/
def getGoalsStats (goals : List Goal) (query : QueryParams) : HttpResponse :=
  let items := filterGoals goals query
  let total := items.length
  let completed := (items.filter fun goal => goal.completed).length
  let active := total - completed
  { status := 200,
    body := Json.obj
      [("total", Json.num (Int.ofNat total)),
       ("active", Json.num (Int.ofNat active)),
       ("completed", Json.num (Int.ofNat completed)),
       ("byPriority", Json.obj
         [("low", Json.num (Int.ofNat (items.filter fun goal => goal.priority == "low").length)),
          ("medium", Json.num (Int.ofNat (items.filter fun goal => goal.priority == "medium").length)),
          ("high", Json.num (Int.ofNat (items.filter fun goal => goal.priority == "high").length))])] }

/-- POST /api/goals (server.js lines 121-150). -/
def postGoals (s : ServerState) (body : ReqBody) (now : String) : ServerState × HttpResponse :=
  let title := match body.title with | some (Json.str t) => jsTrim t | _ => ""
  let priority := (parsePriority body.priority).getD "medium"
  let dueDate := parseDueDate body.dueDate
  if title == "" then
    (s, { status := 400, body := errBody "Title is required." })
  else if optTruthy body.priority && (parsePriority body.priority).isNone then
    (s, { status := 400, body := errBody "Priority must be low, medium, or high." })
  else if optTruthy body.dueDate && dueDate.isNone then
    (s, { status := 400, body := errBody "dueDate must use YYYY-MM-DD format." })
  else
    let goal : Goal :=
      { id := s.nextGoalId, title := title, priority := priority, dueDate := dueDate,
        completed := false, archived := false, createdAt := now }
    ({ goals := s.goals ++ [goal], nextGoalId := s.nextGoalId + 1 },
     { status := 201, body := Json.obj [("item", encodeGoal goal)] })

/-- Replace the first goal with the given id (the PATCH handler mutates
the array element found by goals.find in place). -/
def replaceFirst (goals : List Goal) (id : Nat) (updated : Goal) : List Goal :=
  match goals with
  | [] => []
  | g :: rest => if g.id == id then updated :: rest else g :: replaceFirst rest id updated

/-- The dueDate step of the PATCH handler (server.js lines 179-188),
entered with the goal as already mutated by the title and priority
steps.  Note the error return still leaves those earlier in-place
mutations in the array. -/
def patchDueDateStep (s : ServerState) (id : Nat) (body : ReqBody) (goal2 : Goal) :
    ServerState × HttpResponse :=
  match body.dueDate with
  | none =>
      ({ s with goals := replaceFirst s.goals id goal2 },
       { status := 200, body := Json.obj [("item", encodeGoal goal2)] })
  | some v =>
      let parsed := parseDueDate (some v)
      if (!(isNullJson v)) && parsed.isNone then
        ({ s with goals := replaceFirst s.goals id goal2 },
         { status := 400, body := errBody "dueDate must use YYYY-MM-DD format." })
      else
        let goal3 := { goal2 with dueDate := parsed }
        ({ s with goals := replaceFirst s.goals id goal3 },
         { status := 200, body := Json.obj [("item", encodeGoal goal3)] })

/-- The priority step of the PATCH handler (server.js lines 171-177),
entered with the goal as already mutated by the title step. -/
def patchPriorityStep (s : ServerState) (id : Nat) (body : ReqBody) (goal1 : Goal) :
    ServerState × HttpResponse :=
  match body.priority with
  | none => patchDueDateStep s id body goal1
  | some v =>
      match parsePriority (some v) with
      | none =>
          ({ s with goals := replaceFirst s.goals id goal1 },
           { status := 400, body := errBody "Priority must be low, medium, or high." })
      | some p => patchDueDateStep s id body { goal1 with priority := p }

/-- PATCH /api/goals/:id (server.js lines 152-189).  Fields are
validated and written one at a time, in the order title, priority,
dueDate; a failure at a later field responds 400 but keeps the earlier
in-place mutations. -/
def patchGoal (s : ServerState) (id : Nat) (body : ReqBody) : ServerState × HttpResponse :=
  match s.goals.find? (fun g => g.id == id) with
  | none => (s, { status := 404, body := errBody "Goal not found." })
  | some goal =>
      match body.title with
      | none => patchPriorityStep s id body goal
      | some v =>
          match v with
          | Json.str t =>
              if jsTrim t == "" then
                (s, { status := 400, body := errBody "Title must be a non-empty string." })
              else patchPriorityStep s id body { goal with title := jsTrim t }
          | _ => (s, { status := 400, body := errBody "Title must be a non-empty string." })

/-- Flip the completed flag of the first goal with the given id. -/
def toggleFirst (goals : List Goal) (id : Nat) : List Goal :=
  match goals with
  | [] => []
  | g :: rest =>
      if g.id == id then { g with completed := !g.completed } :: rest
      else g :: toggleFirst rest id

/-- PATCH /api/goals/:id/toggle (server.js lines 191-202). -/
def toggleGoal (s : ServerState) (id : Nat) : ServerState × HttpResponse :=
  match s.goals.find? (fun g => g.id == id) with
  | none => (s, { status := 404, body := errBody "Goal not found." })
  | some goal =>
      ({ s with goals := toggleFirst s.goals id },
       { status := 200,
         body := Json.obj [("item", encodeGoal { goal with completed := !goal.completed })] })

/-- Remove the first goal with the given id (goals.splice(index, 1) at
the index found by findIndex). -/
def removeFirst (goals : List Goal) (id : Nat) : List Goal :=
  match goals with
  | [] => []
  | g :: rest => if g.id == id then rest else g :: removeFirst rest id

/-- DELETE /api/goals/:id (server.js lines 204-215). -/
def deleteGoal (s : ServerState) (id : Nat) : ServerState × HttpResponse :=
  if s.goals.any (fun g => g.id == id) then
    ({ s with goals := removeFirst s.goals id }, { status := 204, body := Json.null })
  else
    (s, { status := 404, body := errBody "Goal not found." })

/-- Lexicographic order on character lists, the comparison JavaScript
applies to strings. -/
def charsLt : List Char → List Char → Bool
  | _, [] => false
  | [], _ :: _ => true
  | c :: cs, d :: ds =>
      if c.toNat < d.toNat then true
      else if d.toNat < c.toNat then false
      else charsLt cs ds

/-- The JavaScript string comparison a < b. -/
def jsStrLt (a b : String) : Bool := charsLt a.toList b.toList

/-- The goal record built by the POST handler: completed and archived
start false, id and createdAt are the assigned counter value and
timestamp. -/
def freshGoal (nid : Nat) (title priority : String) (dueDate : Option String)
    (now : String) : Goal :=
  { id := nid, title := title, priority := priority, dueDate := dueDate,
    completed := false, archived := false, createdAt := now }

/-- The overdue predicate as the specification words it (dueDate
non-null, dueDate lexicographically before today, not completed).
Defined only to compare the specified filter with the code's
filterGoals; the code has no overdue logic at all. -/
def specOverdue (today : String) (g : Goal) : Bool :=
  (match g.dueDate with | none => false | some d => jsStrLt d today) && !g.completed

/-- A create or delete request, the operations claim C9 quantifies
over. -/
inductive Op where
  | create (body : ReqBody) (now : String) : Op
  | del (id : Nat) : Op

/-- Effect of one request on the server state. -/
def applyOp (s : ServerState) : Op → ServerState
  | Op.create body now => (postGoals s body now).1
  | Op.del id => (deleteGoal s id).1

/-- Run a sequence of requests. -/
def runOps : ServerState → List Op → ServerState
  | s, [] => s
  | s, op :: rest => runOps (applyOp s op) rest

/-- The ids handed out by successful creates along a request sequence,
in order of assignment. -/
def assignedIds : ServerState → List Op → List Nat
  | _, [] => []
  | s, Op.create body now :: rest =>
      (if (postGoals s body now).2.status == 201 then [s.nextGoalId] else []) ++
        assignedIds (applyOp s (Op.create body now)) rest
  | s, Op.del id :: rest => assignedIds (applyOp s (Op.del id)) rest

/-- The startup state when no data file exists: empty collection,
counter 1 (server.js lines 12-13). -/
def initState : ServerState := { goals := [], nextGoalId := 1 }

/-- The id-freshness invariant of the store: every stored id is below
the counter, and stored ids are pairwise distinct. -/
def GoodState (s : ServerState) : Prop :=
  (∀ g ∈ s.goals, g.id < s.nextGoalId) ∧ ((s.goals.map fun g => g.id).Nodup)

/-- Concrete inputs used by the witnesses and counterexamples. -/
def gA : Goal :=
  { id := 1, title := "Goal A", priority := "medium", dueDate := none,
    completed := false, archived := false, createdAt := "2024-01-01T00:00:00.000Z" }

def gB : Goal :=
  { id := 2, title := "Goal B", priority := "low", dueDate := none,
    completed := false, archived := false, createdAt := "2024-01-02T00:00:00.000Z" }

/-- A completed goal with no due date: the specified overdue filter
must exclude it (twice over), the code keeps it. -/
def gDone : Goal :=
  { id := 3, title := "Done", priority := "medium", dueDate := none,
    completed := true, archived := false, createdAt := "2024-01-03T00:00:00.000Z" }

/-- An incomplete archived goal, as a record loaded from the data file
may be. -/
def gArch : Goal :=
  { id := 4, title := "Arch", priority := "medium", dueDate := none,
    completed := false, archived := true, createdAt := "2024-01-04T00:00:00.000Z" }

/-- An incomplete goal due 2024-06-14, overdue when today is
2024-06-15. -/
def gOver : Goal :=
  { id := 5, title := "Late", priority := "low", dueDate := some "2024-06-14",
    completed := false, archived := false, createdAt := "2024-06-01T00:00:00.000Z" }

def emptyQuery : QueryParams := {}

def pageQuery : QueryParams :=
  { page := some "2", pageSize := some "1", includeArchived := some "false" }

def overdueQuery : QueryParams := { status := some "overdue" }

def activeQuery : QueryParams := { status := some "active" }

def bananaQuery : QueryParams := { status := some "banana" }

def c5Goal : Goal :=
  { id := 1, title := "Old title", priority := "low", dueDate := none,
    completed := false, archived := false, createdAt := "2024-01-01T00:00:00.000Z" }

def c5State : ServerState := { goals := [c5Goal], nextGoalId := 2 }

/-- A PATCH body with a valid title and an invalid priority. -/
def c5Body : ReqBody :=
  { title := some (Json.str "New title"), priority := some (Json.str "urgent") }

/-- A POST body with a valid title and a truthy invalid priority. -/
def c7BadBody : ReqBody :=
  { title := some (Json.str "Read 10 pages"), priority := some (Json.str "urgent") }

/-- A POST body with a valid title and no priority or dueDate. -/
def c7PlainBody : ReqBody := { title := some (Json.str "Read 10 pages") }

def tglState : ServerState := { goals := [gA], nextGoalId := 2 }

end StudySprint

namespace StudySprint

lemma find?_decomp {p : Goal → Bool} :
    ∀ {l : List Goal} {a : Goal}, l.find? p = some a →
      ∃ pre post, l = pre ++ a :: post ∧ ∀ x ∈ pre, p x = false := by
  intro l
  induction l with
  | nil => intro a h; simp [List.find?] at h
  | cons b rest ih =>
    intro a h
    by_cases hb : p b
    · rw [List.find?_cons_of_pos _ hb] at h
      obtain rfl : b = a := by injection h
      exact ⟨[], rest, rfl, by simp⟩
    · rw [List.find?_cons_of_neg _ hb] at h
      obtain ⟨pre, post, rfl, hpre⟩ := ih h
      refine ⟨b :: pre, post, rfl, ?_⟩
      intro x hx
      rcases List.mem_cons.mp hx with rfl | hx
      · exact Bool.eq_false_iff.mpr hb
      · exact hpre x hx

lemma find?_append_first {p : Goal → Bool} {pre post : List Goal} {a : Goal}
    (hpre : ∀ x ∈ pre, p x = false) (ha : p a = true) :
    (pre ++ a :: post).find? p = some a := by
  induction pre with
  | nil => simp [List.find?_cons_of_pos _ ha]
  | cons b rest ih =>
    have hb : p b = false := hpre b (List.mem_cons_self b rest)
    rw [List.cons_append, List.find?_cons_of_neg _ (by simp [hb])]
    exact ih fun x hx => hpre x (List.mem_cons_of_mem b hx)

lemma toggleFirst_append {pre post : List Goal} {g : Goal} {id : Nat}
    (hpre : ∀ x ∈ pre, (x.id == id) = false) (hg : (g.id == id) = true) :
    toggleFirst (pre ++ g :: post) id = pre ++ { g with completed := !g.completed } :: post := by
  induction pre with
  | nil => simp [toggleFirst, hg]
  | cons b rest ih =>
    have hb : (b.id == id) = false := hpre b (List.mem_cons_self b rest)
    have ih2 := ih fun x hx => hpre x (List.mem_cons_of_mem b hx)
    simp [toggleFirst, hb, ih2]

lemma toggleFirst_toggleFirst (l : List Goal) (id : Nat) :
    toggleFirst (toggleFirst l id) id = l := by
  induction l with
  | nil => rfl
  | cons g rest ih =>
    by_cases h : (g.id == id) = true
    · simp [toggleFirst, h]
    · simp [toggleFirst, h, ih]

lemma removeFirst_sublist (l : List Goal) (id : Nat) :
    List.Sublist (removeFirst l id) l := by
  induction l with
  | nil => exact List.Sublist.refl _
  | cons g rest ih =>
    unfold removeFirst
    by_cases h : (g.id == id) = true
    · simp [h]
    · simp only [if_neg h]
      exact List.Sublist.cons₂ g ih

lemma goalMatches_unknown_status (s p q : String)
    (h1 : (s == "active") = false) (h2 : (s == "completed") = false) (g : Goal) :
    goalMatches s p q g = goalMatches "" p q g := by
  unfold goalMatches
  rw [h1, h2]
  rfl

end StudySprint

namespace StudySprint

lemma postGoals_spec (s : ServerState) (body : ReqBody) (now : String) :
    ((postGoals s body now).2.status = 201 ∧
      ∃ g : Goal, g.id = s.nextGoalId ∧
        (postGoals s body now).1 = { goals := s.goals ++ [g], nextGoalId := s.nextGoalId + 1 }) ∨
    ((postGoals s body now).2.status = 400 ∧ (postGoals s body now).1 = s) := by
  unfold postGoals
  dsimp only
  split
  · exact Or.inr ⟨rfl, rfl⟩
  · split
    · exact Or.inr ⟨rfl, rfl⟩
    · split
      · exact Or.inr ⟨rfl, rfl⟩
      · exact Or.inl ⟨rfl, ⟨_, rfl, rfl⟩⟩

lemma deleteGoal_nextId (s : ServerState) (id : Nat) :
    (deleteGoal s id).1.nextGoalId = s.nextGoalId := by
  unfold deleteGoal
  split <;> rfl

lemma applyOp_nextId_le (s : ServerState) (op : Op) :
    s.nextGoalId ≤ (applyOp s op).nextGoalId := by
  cases op with
  | create body now =>
    show s.nextGoalId ≤ (postGoals s body now).1.nextGoalId
    rcases postGoals_spec s body now with ⟨_, g, hg, hst⟩ | ⟨_, hst⟩
    · rw [hst]; exact Nat.le_succ _
    · rw [hst]
  | del id =>
    show s.nextGoalId ≤ (deleteGoal s id).1.nextGoalId
    rw [deleteGoal_nextId]

lemma assigned_lb : ∀ (ops : List Op) (s : ServerState), ∀ x ∈ assignedIds s ops,
    s.nextGoalId ≤ x := by
  intro ops
  induction ops with
  | nil => intro s x hx; simp [assignedIds] at hx
  | cons op rest ih =>
    intro s x hx
    cases op with
    | create body now =>
      simp only [assignedIds, List.mem_append] at hx
      rcases hx with hx | hx
      · by_cases h201 : ((postGoals s body now).2.status == 201) = true
        · rw [if_pos h201] at hx
          simp at hx
          omega
        · rw [if_neg h201] at hx
          simp at hx
      · exact Nat.le_trans (applyOp_nextId_le s (Op.create body now)) (ih _ x hx)
    | del id =>
      simp only [assignedIds] at hx
      exact Nat.le_trans (applyOp_nextId_le s (Op.del id)) (ih _ x hx)

lemma assigned_pairwise : ∀ (ops : List Op) (s : ServerState),
    List.Pairwise (fun a b => a < b) (assignedIds s ops) := by
  intro ops
  induction ops with
  | nil => intro s; simp [assignedIds]
  | cons op rest ih =>
    intro s
    cases op with
    | create body now =>
      by_cases h201 : ((postGoals s body now).2.status == 201) = true
      · have hnext : (applyOp s (Op.create body now)).nextGoalId = s.nextGoalId + 1 := by
          rcases postGoals_spec s body now with ⟨_, g, hg, hst⟩ | ⟨h400, hst⟩
          · show (postGoals s body now).1.nextGoalId = s.nextGoalId + 1
            rw [hst]
          · exfalso
            have := beq_iff_eq.mp h201
            omega
        simp only [assignedIds, if_pos h201, List.singleton_append]
        constructor
        · intro y hy
          have := assigned_lb rest (applyOp s (Op.create body now)) y hy
          omega
        · exact ih _
      · simp only [assignedIds, if_neg h201, List.nil_append]
        exact ih _
    | del id =>
      simp only [assignedIds]
      exact ih _

lemma goodState_applyOp (s : ServerState) (op : Op) (h : GoodState s) :
    GoodState (applyOp s op) := by
  cases op with
  | create body now =>
    show GoodState (postGoals s body now).1
    rcases postGoals_spec s body now with ⟨_, g, hg, hst⟩ | ⟨_, hst⟩
    · rw [hst]
      constructor
      · intro x hx
        rcases List.mem_append.mp hx with hx | hx
        · exact Nat.lt_succ_of_lt (h.1 x hx)
        · have hxg : x = g := by simpa using hx
          subst hxg
          dsimp only
          omega
      · have hfresh : g.id ∉ s.goals.map fun x => x.id := by
          intro hmem
          obtain ⟨y, hy, hyid⟩ := List.mem_map.mp hmem
          have := h.1 y hy
          omega
        simp only [List.map_append, List.map_cons, List.map_nil]
        rw [List.nodup_append]
        refine ⟨h.2, List.nodup_singleton _, ?_⟩
        intro a ha hb
        simp at hb
        subst hb
        exact hfresh ha
    · rw [hst]; exact h
  | del id =>
    show GoodState (deleteGoal s id).1
    unfold deleteGoal
    split
    · constructor
      · intro x hx
        exact h.1 x ((removeFirst_sublist s.goals id).subset hx)
      · exact h.2.sublist (List.Sublist.map _ (removeFirst_sublist s.goals id))
    · exact h

lemma runOps_good : ∀ (ops : List Op) (s : ServerState), GoodState s →
    GoodState (runOps s ops) := by
  intro ops
  induction ops with
  | nil => intro s hs; exact hs
  | cons op rest ih => intro s hs; exact ih _ (goodState_applyOp s op hs)

end StudySprint

namespace StudySprint

lemma parsePriority_falsy {v : Json} (h : jsTruthy v = false) :
    parsePriority (some v) = none := by
  cases v with
  | null => rfl
  | bool b => rfl
  | num n => rfl
  | str s =>
      have hs : s = "" := by simpa [jsTruthy] using h
      subst hs
      rfl
  | arr xs => rfl
  | obj fs => rfl

/-- C1 (amended): GET /api/goals applies the filter only.  The page and
pageSize parameters do not change the response at all, and the response
body has no meta record: items is always the entire filtered
collection, never a slice. -/
theorem getGoals_no_pagination :
    (∀ (goals : List Goal) (query : QueryParams) (p ps : Option String),
        getGoals goals { query with page := p, pageSize := ps } = getGoals goals query) ∧
    (∀ (goals : List Goal) (query : QueryParams),
        jsonLookup (getGoals goals query).body "meta" = none ∧
        jsonLookup (getGoals goals query).body "items" =
          some (Json.arr ((filterGoals goals query).map encodeGoal))) := by
  constructor
  · intro goals query p ps
    rfl
  · intro goals query
    exact ⟨rfl, rfl⟩

/-- C1 counterexample: with two goals in store and the valid request
page=2, pageSize=1 the claim requires a meta record and the one-element
slice [gB]; the response has no meta key and returns both goals. -/
theorem getGoals_meta_missing_cex :
    jsonLookup (getGoals [gA, gB] pageQuery).body "meta" = none ∧
    jsonLookup (getGoals [gA, gB] pageQuery).body "items" =
      some (Json.arr [encodeGoal gA, encodeGoal gB]) :=
  ⟨rfl, rfl⟩

/-- C2 (amended): status=overdue is not a recognized status in the
code; it applies no status constraint at all, so the result is the same
as omitting status entirely (only the priority and text filters act). -/
theorem filterGoals_overdue_ignored (items : List Goal) (query : QueryParams) :
    filterGoals items { query with status := some "overdue" } =
      filterGoals items { query with status := none } := by
  unfold filterGoals
  apply List.filter_congr
  intro g _
  exact goalMatches_unknown_status "overdue" _ _ rfl rfl g

/-- C2 counterexample: a completed goal with no due date fails the
specified overdue predicate twice over, yet status=overdue returns it;
the result is not the specified overdue filtration. -/
theorem filterGoals_overdue_cex :
    specOverdue "2024-06-15" gDone = false ∧
    filterGoals [gDone] overdueQuery = [gDone] ∧
    filterGoals [gDone] overdueQuery ≠ [gDone].filter (specOverdue "2024-06-15") := by
  decide

/-- C3 (amended): filterGoals never reads the archived flag: results
are invariant under rewriting every archived flag, so archived goals
appear in every view whose other filters they pass; and status=archived
is unrecognized, applying no status constraint at all. -/
theorem filterGoals_archived_ignored :
    (∀ (items : List Goal) (query : QueryParams) (b : Bool),
        filterGoals (items.map fun g => { g with archived := b }) query =
          (filterGoals items query).map fun g => { g with archived := b }) ∧
    (∀ (items : List Goal) (query : QueryParams),
        filterGoals items { query with status := some "archived" } =
          filterGoals items { query with status := none }) := by
  constructor
  · intro items query b
    unfold filterGoals
    rw [List.filter_map]
    congr 1
  · intro items query
    unfold filterGoals
    apply List.filter_congr
    intro g _
    exact goalMatches_unknown_status "archived" _ _ rfl rfl g

/-- C3 counterexample: an incomplete archived goal is returned by the
status=active view (includeArchived absent), which the claim forbids. -/
theorem filterGoals_archived_cex :
    gArch.archived = true ∧ gArch.completed = false ∧
    filterGoals [gArch] activeQuery = [gArch] := by
  decide

/-- C4 (amended): GET /api/goals performs no query-parameter
validation: every request, however malformed its parameter values,
succeeds with status 200, and an unrecognized status value is silently
ignored (it filters exactly like an absent status). -/
theorem getGoals_no_validation :
    (∀ (goals : List Goal) (query : QueryParams), (getGoals goals query).status = 200) ∧
    (∀ (goals : List Goal) (query : QueryParams) (s : String),
        ((jsToLower (jsTrim s) == "active") = false) →
        ((jsToLower (jsTrim s) == "completed") = false) →
        filterGoals goals { query with status := some s } =
          filterGoals goals { query with status := none }) := by
  constructor
  · intro goals query
    rfl
  · intro goals query s h1 h2
    unfold filterGoals
    apply List.filter_congr
    intro g _
    exact goalMatches_unknown_status (jsToLower (jsTrim s)) _ _ h1 h2 g

theorem getGoals_no_validation_witness :
    (getGoals [gA] bananaQuery).status = 200 ∧
    filterGoals [gA] { emptyQuery with status := some "banana" } =
      filterGoals [gA] { emptyQuery with status := none } :=
  ⟨getGoals_no_validation.1 [gA] bananaQuery,
   getGoals_no_validation.2 [gA] emptyQuery "banana" rfl rfl⟩

/-- C4 counterexample: status=banana is outside the accepted set, yet
the request succeeds with 200, no error key, and the unfiltered item. -/
theorem getGoals_invalid_param_cex :
    (getGoals [gA] bananaQuery).status = 200 ∧
    jsonLookup (getGoals [gA] bananaQuery).body "error" = none ∧
    jsonLookup (getGoals [gA] bananaQuery).body "items" =
      some (Json.arr [encodeGoal gA]) :=
  ⟨rfl, rfl, rfl⟩

/-- C5: PATCH with a valid title and an invalid priority responds 400
yet has already overwritten the stored title in memory: the goal is not
left unchanged, contradicting the validate-before-mutate contract. -/
theorem patchGoal_partial_mutation_bug :
    (patchGoal c5State 1 c5Body).2.status = 400 ∧
    (patchGoal c5State 1 c5Body).1.goals = [{ c5Goal with title := "New title" }] ∧
    c5Goal.title = "Old title" := by
  decide

/-- C6 (amended): the stats endpoint reports total, active = total
minus completed, completed, and the three byPriority buckets, all over
the filtered snapshot; the body carries no overdue count at all. -/
theorem getGoalsStats_fields (goals : List Goal) (query : QueryParams) :
    jsonLookup (getGoalsStats goals query).body "total" =
      some (Json.num (Int.ofNat (filterGoals goals query).length)) ∧
    jsonLookup (getGoalsStats goals query).body "active" =
      some (Json.num (Int.ofNat ((filterGoals goals query).length -
        (filterGoals goals query).countP (fun g => g.completed)))) ∧
    jsonLookup (getGoalsStats goals query).body "completed" =
      some (Json.num (Int.ofNat ((filterGoals goals query).countP (fun g => g.completed)))) ∧
    jsonLookup (getGoalsStats goals query).body "byPriority" =
      some (Json.obj
        [("low", Json.num (Int.ofNat ((filterGoals goals query).countP
            (fun g => g.priority == "low")))),
         ("medium", Json.num (Int.ofNat ((filterGoals goals query).countP
            (fun g => g.priority == "medium")))),
         ("high", Json.num (Int.ofNat ((filterGoals goals query).countP
            (fun g => g.priority == "high"))))]) ∧
    jsonLookup (getGoalsStats goals query).body "overdue" = none := by
  refine ⟨rfl, ?_, ?_, ?_, rfl⟩
  all_goals (simp only [List.countP_eq_length_filter]; rfl)

/-- C6 counterexample: with one goal overdue relative to 2024-06-15 the
claim requires an overdue count in the stats body; the body has no
overdue key. -/
theorem getGoalsStats_overdue_cex :
    specOverdue "2024-06-15" gOver = true ∧
    jsonLookup (getGoalsStats [gOver] emptyQuery).body "overdue" = none :=
  ⟨by decide, rfl⟩

/-- C7 (amended): when the title trims non-empty and dueDate is absent,
an absent or falsy priority (undefined, null, false, 0 or the empty
string) yields 201 with priority medium, completed false, archived
false and dueDate null; but a truthy invalid priority such as "urgent"
is rejected with 400 instead of defaulting to medium. -/
theorem postGoals_priority_default (s : ServerState) (body : ReqBody) (now t : String)
    (ht : body.title = some (Json.str t)) (htne : (jsTrim t == "") = false)
    (hd : body.dueDate = none) :
    ((body.priority = none ∨ ∃ v, body.priority = some v ∧ jsTruthy v = false) →
      postGoals s body now =
        (⟨s.goals ++ [freshGoal s.nextGoalId (jsTrim t) "medium" none now], s.nextGoalId + 1⟩,
         ⟨201, Json.obj [("item", encodeGoal (freshGoal s.nextGoalId (jsTrim t) "medium" none now))]⟩)) ∧
    (∀ v, body.priority = some v → jsTruthy v = true → parsePriority body.priority = none →
      postGoals s body now =
        (s, ⟨400, errBody "Priority must be low, medium, or high."⟩)) := by
  constructor
  · intro hp
    have hpp : parsePriority body.priority = none := by
      rcases hp with hp | ⟨v, hpv, hfv⟩
      · rw [hp]; rfl
      · rw [hpv]; exact parsePriority_falsy hfv
    have hpt : optTruthy body.priority = false := by
      rcases hp with hp | ⟨v, hpv, hfv⟩
      · rw [hp]; rfl
      · rw [hpv]; exact hfv
    simp only [postGoals, ht, hd, hpp, hpt, htne]
    simp [optTruthy, parseDueDate, freshGoal]
  · intro v hpv htr hpar
    have h1 : optTruthy body.priority = true := by rw [hpv]; exact htr
    have h2 : (parsePriority body.priority).isNone = true := by rw [hpar]; rfl
    simp only [postGoals, ht, hd, htne, h1, h2]
    simp

theorem postGoals_priority_default_witness :
    postGoals initState c7PlainBody "2024-01-01T00:00:00.000Z" =
      (⟨[freshGoal 1 "Read 10 pages" "medium" none "2024-01-01T00:00:00.000Z"], 2⟩,
       ⟨201, Json.obj [("item", encodeGoal (freshGoal 1 "Read 10 pages" "medium" none "2024-01-01T00:00:00.000Z"))]⟩) ∧
    postGoals initState c7BadBody "2024-01-01T00:00:00.000Z" =
      (initState, ⟨400, errBody "Priority must be low, medium, or high."⟩) := by
  constructor
  · exact (postGoals_priority_default initState c7PlainBody "2024-01-01T00:00:00.000Z"
      "Read 10 pages" rfl rfl rfl).1 (Or.inl rfl)
  · exact (postGoals_priority_default initState c7BadBody "2024-01-01T00:00:00.000Z"
      "Read 10 pages" rfl rfl rfl).2 (Json.str "urgent") rfl rfl rfl

/-- C7 counterexample: a valid title with the invalid priority "urgent"
is rejected with 400 and no goal is created, where the claim requires
201 with priority defaulted to medium. -/
theorem postGoals_invalid_priority_cex :
    (postGoals initState c7BadBody "2024-01-01T00:00:00.000Z").2.status = 400 ∧
    (postGoals initState c7BadBody "2024-01-01T00:00:00.000Z").1 = initState := by
  decide

/-- C8: toggling an existing goal twice restores the entire server
state, and toggling once rewrites exactly the first goal carrying the
id, flipping only its completed field (the record update keeps id,
title, priority, dueDate, archived and createdAt), while every other
stored goal is untouched. -/
theorem toggleGoal_involutive (s : ServerState) (id : Nat) (g : Goal)
    (h : s.goals.find? (fun x => x.id == id) = some g) :
    (toggleGoal (toggleGoal s id).1 id).1 = s ∧
    ∃ pre post, s.goals = pre ++ g :: post ∧ (∀ x ∈ pre, (x.id == id) = false) ∧
      (toggleGoal s id).1.goals = pre ++ { g with completed := !g.completed } :: post ∧
      (toggleGoal s id).2 =
        ⟨200, Json.obj [("item", encodeGoal { g with completed := !g.completed })]⟩ := by
  obtain ⟨pre, post, hl, hpre⟩ := find?_decomp h
  have hg : (g.id == id) = true := by
    have hq := List.find?_some h
    exact hq
  have htog : toggleFirst s.goals id = pre ++ { g with completed := !g.completed } :: post := by
    rw [hl]; exact toggleFirst_append hpre hg
  have hfind2 : (toggleFirst s.goals id).find? (fun x => x.id == id) =
      some { g with completed := !g.completed } := by
    rw [htog]
    exact find?_append_first hpre hg
  have h1 : toggleGoal s id = ({ s with goals := toggleFirst s.goals id },
      ⟨200, Json.obj [("item", encodeGoal { g with completed := !g.completed })]⟩) := by
    unfold toggleGoal
    rw [h]
  have h2 : (toggleGoal { s with goals := toggleFirst s.goals id } id).1 =
      { s with goals := toggleFirst (toggleFirst s.goals id) id } := by
    unfold toggleGoal
    dsimp only
    rw [hfind2]
  refine ⟨?_, pre, post, hl, hpre, ?_, ?_⟩
  · rw [h1]
    dsimp only
    rw [h2, toggleFirst_toggleFirst]
  · rw [h1]
    exact htog
  · rw [h1]

theorem toggleGoal_involutive_witness :
    (toggleGoal (toggleGoal tglState 1).1 1).1 = tglState :=
  (toggleGoal_involutive tglState 1 gA rfl).1

/-- C9: along any sequence of create and delete requests from the
startup state, the ids handed out by successful creates are strictly
increasing (so an id freed by a delete is never handed out again), and
the stored ids remain pairwise distinct. -/
theorem goalIds_monotone_nodup (ops : List Op) :
    List.Pairwise (fun a b => a < b) (assignedIds initState ops) ∧
    (((runOps initState ops).goals.map fun g => g.id).Nodup) :=
  ⟨assigned_pairwise ops initState,
   (runOps_good ops initState
     ⟨fun g hg => absurd hg (List.not_mem_nil g), List.nodup_nil⟩).2⟩

/-- C10: a supplied priority string is normalized by trim plus
lowercase before the membership test, and the normalized form is what
both the create and the update handler store. -/
theorem priority_trim_lowercase (raw : String)
    (h : validPriorities.contains (jsToLower (jsTrim raw)) = true) :
    parsePriority (some (Json.str raw)) = some (jsToLower (jsTrim raw)) ∧
    (∀ (s : ServerState) (now t : String), (jsTrim t == "") = false →
      postGoals s ⟨some (Json.str t), some (Json.str raw), none⟩ now =
        (⟨s.goals ++ [freshGoal s.nextGoalId (jsTrim t) (jsToLower (jsTrim raw)) none now], s.nextGoalId + 1⟩,
         ⟨201, Json.obj [("item", encodeGoal (freshGoal s.nextGoalId (jsTrim t) (jsToLower (jsTrim raw)) none now))]⟩)) ∧
    (∀ (s : ServerState) (id : Nat) (g : Goal),
        s.goals.find? (fun x => x.id == id) = some g →
        patchGoal s id ⟨none, some (Json.str raw), none⟩ =
          ({ s with goals := replaceFirst s.goals id { g with priority := jsToLower (jsTrim raw) } },
           ⟨200, Json.obj [("item", encodeGoal { g with priority := jsToLower (jsTrim raw) })]⟩)) := by
  have hpp : parsePriority (some (Json.str raw)) = some (jsToLower (jsTrim raw)) := by
    unfold parsePriority
    dsimp only
    rw [if_pos h]
  refine ⟨hpp, ?_, ?_⟩
  · intro s now t htne
    simp only [postGoals, hpp, htne]
    simp [optTruthy, parseDueDate, freshGoal]
  · intro s id g hfind
    unfold patchGoal
    rw [hfind]
    dsimp only
    unfold patchPriorityStep
    dsimp only
    rw [hpp]
    rfl

theorem priority_trim_lowercase_witness :
    parsePriority (some (Json.str " HIGH ")) = some "high" ∧
    patchGoal tglState 1 ⟨none, some (Json.str " HIGH "), none⟩ =
      ({ tglState with goals := replaceFirst tglState.goals 1 { gA with priority := "high" } },
       ⟨200, Json.obj [("item", encodeGoal { gA with priority := "high" })]⟩) := by
  have H := priority_trim_lowercase " HIGH " (by decide)
  exact ⟨H.1, H.2.2 tglState 1 gA rfl⟩

end StudySprint
